import Mathlib

/-!
Verification of the beatport-spotify-sync reconciliation core
(src/functions/index.js) against its design specification.

The JavaScript source is shallowly embedded: every effectful step of the
code (token refresh, search request, database write, playlist insertion,
HTTP response) is recorded as an explicit event, and each exported
function becomes a pure Lean function from an environment (the external
Spotify API's behaviour) and its inputs to an event trace plus an
`Except` outcome mirroring promise resolution/rejection.
-/

set_option autoImplicit false

namespace BeatportSync

/-! ## Character-level string helpers

`String.replace`-style operations are re-implemented structurally on
`List Char` so that the kernel can evaluate them in witnesses. -/

/-- Case-insensitive character comparison, modelling the `i` flag of the
JavaScript regular expressions in `sanitizeTrackName` (ASCII folding). -/
def charLowerEq (a b : Char) : Bool :=
  a.toLower == b.toLower

/-- Does pattern `p` match, case-insensitively, a prefix of the subject
list `s`?  Mirrors the regex engine testing a fixed literal pattern at
one position. -/
def matchesAt : List Char → List Char → Bool
  | [], _ => true
  | _ :: _, [] => false
  | a :: ps, b :: ss => charLowerEq a b && matchesAt ps ss

/-- One global, left-to-right, case-insensitive removal pass of the
literal pattern `p`, exactly as `String.prototype.replace` with a `gi`
literal regex and replacement `""` behaves: scanning resumes after the
end of each match and the built result is never re-scanned.  The `Nat`
argument counts pattern characters still to be skipped after a match. -/
def stripCIAux (p : List Char) : List Char → Nat → List Char
  | [], _ => []
  | _ :: cs, k + 1 => stripCIAux p cs k
  | c :: cs, 0 =>
    if matchesAt p (c :: cs) then stripCIAux p cs (p.length - 1)
    else c :: stripCIAux p cs 0

/-- `s.replace(/p/gi, '')` for a literal pattern `p`. -/
def stripPhraseCI (p : String) (s : List Char) : List Char :=
  stripCIAux p.data s 0

/-- Does `s` contain a case-insensitive occurrence of the literal
pattern `p` at any position? -/
def containsCI (p : List Char) : List Char → Bool
  | [] => matchesAt p []
  | c :: cs => matchesAt p (c :: cs) || containsCI p cs

/-- The sanitizer from the source:

`name.replace(/(Original Mix)/gi, '').replace(/(Extended Mix)/gi, '').replace(/[()]/g, '')`. -/
def sanitizeTrackName (name : String) : String :=
  String.mk (List.filter (fun c => !(c == '(' || c == ')'))
    (stripPhraseCI "Extended Mix" (stripPhraseCI "Original Mix" name.data)))

/-- A removal pass over a subject that contains no occurrence of the
pattern is the identity. -/
theorem stripCIAux_of_not_contains (p : List Char) :
    ∀ s : List Char, containsCI p s = false → stripCIAux p s 0 = s := by
  intro s
  induction s with
  | nil => intro _; rfl
  | cons c cs ih =>
    intro h
    have h' : matchesAt p (c :: cs) = false ∧ containsCI p cs = false := by
      simpa [containsCI] using h
    simp [stripCIAux, h'.1, ih h'.2]

/-! ## JavaScript object and number modelling

Track payloads are JSON objects with string values; they are embedded as
association lists in key-insertion order (JSON numbers appear as their
decimal literal strings, consistently with how the code only ever
coerces them via `Number(...)` and template literals). -/

/-- A one-level JavaScript object with values of type `α`. -/
abbrev JsObj (α : Type) : Type := List (String × α)

/-- `key.toLowerCase()` (ASCII folding, as used on payload keys). -/
def jsLowerString (s : String) : String :=
  String.mk (s.data.map Char.toLower)

/-- `obj[k] = v`: overwrite the value when the key is present (keeping
its position, as JavaScript objects do), else append the new key. -/
def jsSet {α : Type} (obj : JsObj α) (k : String) (v : α) : JsObj α :=
  if obj.any (fun p => p.1 == k) then
    obj.map (fun p => if p.1 == k then (k, v) else p)
  else obj ++ [(k, v)]

/-- `obj[k]`, `none` standing for JavaScript `undefined`. -/
def objGet {α : Type} (obj : JsObj α) (k : String) : Option α :=
  (obj.find? (fun p => p.1 == k)).map Prod.snd

/-- The key-normalisation reduce from the source, applied to a raw
payload: `Object.keys(track).reduce((obj, key) => { obj[key.toLowerCase()] = track[key]; ... }, {})`.
Later assignments to the same lowered key overwrite earlier ones. -/
def lowerKeys (track : JsObj String) : JsObj String :=
  track.foldl (fun acc p => jsSet acc (jsLowerString p.1) p.2) []

/-- `String.prototype.split` with a one-character separator: every
separator occurrence cuts, empty fields are kept, `""` yields `[""]`. -/
def jsSplitAux (sep : Char) : List Char → List Char → List (List Char)
  | [], acc => [acc.reverse]
  | c :: cs, acc =>
    if c == sep then acc.reverse :: jsSplitAux sep cs []
    else jsSplitAux sep cs (c :: acc)

/-- `s.split(sep)` for a one-character separator. -/
def jsSplit (sep : Char) (s : String) : List String :=
  (jsSplitAux sep s.data []).map String.mk

/-- Value of a nonempty all-digit character list, `none` otherwise. -/
def decValueAux : List Char → Nat → Option Nat
  | [], acc => some acc
  | c :: cs, acc =>
    if '0' ≤ c && c ≤ '9' then decValueAux cs (acc * 10 + (c.toNat - 48))
    else none

/-- Decimal value of a nonempty digit string. -/
def decValue : List Char → Option Nat
  | [] => none
  | c :: cs => decValueAux (c :: cs) 0

/-- Truthiness of `Number(s)`, modelling the JavaScript coercion on the
string shapes the webhook handles: after trimming spaces, the empty
string coerces to `0`, an optional-sign decimal-integer literal to its
value, and anything else to `NaN`; the numbers `0`, `-0` and `NaN` are
falsy, every other number truthy. -/
def jsNumberTruthy (s : String) : Bool :=
  let t := ((s.data.dropWhile (fun c => c == ' ')).reverse.dropWhile
    (fun c => c == ' ')).reverse
  match t with
  | [] => false
  | '+' :: rest =>
    match decValue rest with
    | some n => n ≠ 0
    | none => false
  | '-' :: rest =>
    match decValue rest with
    | some n => n ≠ 0
    | none => false
  | l =>
    match decValue l with
    | some n => n ≠ 0
    | none => false

/-! ## The external Spotify API and the event trace -/

deriving instance DecidableEq for Except

/-- One search result item; only the `uri` field is ever read. -/
structure SpotifyItem where
  uri : String
deriving DecidableEq, Repr

/-- An error value rejected by the external API client. -/
structure SpotifyErr where
  statusCode : Nat
deriving DecidableEq, Repr

/-- Behaviour of the external Spotify API during one reconciliation:
`searchResults q` models `client.searchTracks(q)` resolving with
`data.body.tracks.items` (rejections and missing/empty item lists are
distinguished), `addToPlaylist uri` models
`client.addTracksToPlaylist(PLAYLIST_ID, [uri], position 0)` resolving
with `data.body.snapshot_id`, and `refreshResult` models
`client.refreshAccessToken()` resolving with the new access token. -/
structure SpotifyEnv where
  searchResults : String → Except SpotifyErr (List SpotifyItem)
  addToPlaylist : String → Except SpotifyErr String
  refreshResult : Except SpotifyErr String

/-- Observable effects of one reconciliation, in program order. -/
inductive Event where
  /-- the token-refresh endpoint is called -/
  | refreshCall : Event
  /-- the refreshed access token is written to `/tokens/access_token` -/
  | refreshPersist (token : String) : Event
  /-- a search request with the given query string is issued -/
  | searchCall (query : String) : Event
  /-- `update(\x7b spotifyUri \x7d)` on `/tracks/(trackId)` -/
  | uriWrite (trackId uri : String) : Event
  /-- the playlist-insertion endpoint is called for the given URI -/
  | playlistCall (uri : String) : Event
  /-- `update(\x7b spotifyPlaylistSnapshotId \x7d)` on `/tracks/(trackId)` -/
  | snapshotWrite (trackId snap : String) : Event
deriving DecidableEq, Repr

/-- Is the event a write to a Track Record (`/tracks/...`)? -/
def isTrackWrite : Event → Bool
  | Event.uriWrite _ _ => true
  | Event.snapshotWrite _ _ => true
  | _ => false

/-- Is the event a playlist-insertion call? -/
def isPlaylistCall : Event → Bool
  | Event.playlistCall _ => true
  | _ => false

/-- Is the event a token-refresh call? -/
def isRefreshCall : Event → Bool
  | Event.refreshCall => true
  | _ => false

/-! ## The Resolver (`searchTrack`) -/

/-- The query string built for one artist:
`artist:(artist) track:(sanitizeTrackName(name))`. -/
def perArtistQuery (name artist : String) : String :=
  "artist:" ++ artist ++ " track:" ++ sanitizeTrackName name

/-- The list of search queries `searchTrack` issues for a raw track
payload: keys are lowered, the `artists` value is split on commas, and
one query per artist substring is built.  A payload missing either
field would make the JavaScript throw before issuing any query; the
theorems below only use payloads where both fields are present. -/
def searchQueriesOf (track : JsObj String) : List String :=
  match objGet (lowerKeys track) "artists", objGet (lowerKeys track) "name" with
  | some artists, some name => (jsSplit ',' artists).map (perArtistQuery name)
  | _, _ => []

/-- Outcome of one per-artist search promise: a rejection is caught by
the per-request `.catch` and becomes `null`; a resolved body with a
missing or empty item list becomes `null`; otherwise the first item's
`uri`. -/
def perQueryResult (env : SpotifyEnv) (q : String) : Option String :=
  match env.searchResults q with
  | Except.error _ => none
  | Except.ok [] => none
  | Except.ok (item :: _) => some item.uri

/-- `arrayOfResponses.find(response => response)`: the first truthy
response (`null`, `undefined` and the empty string are falsy). -/
def jsFindTruthy : List (Option String) → Option String
  | [] => none
  | none :: rest => jsFindTruthy rest
  | some s :: rest => if s = "" then jsFindTruthy rest else some s

/-- The Resolver: issues one search per artist (all requests fired in
artist order), awaits them all, and selects the first truthy URI.
Returns the trace of issued queries and the resolved value. -/
def searchTrack (env : SpotifyEnv) (track : JsObj String) :
    List Event × Option String :=
  ((searchQueriesOf track).map Event.searchCall,
    jsFindTruthy ((searchQueriesOf track).map (perQueryResult env)))

/-! ## Token Manager and playlist insertion -/

/-- `refreshAccessToken(client)`: calls the refresh endpoint; on success
the new token is set on the client and persisted to
`/tokens/access_token`; a rejection is logged and swallowed, so the
returned promise always resolves. -/
def refreshAccessToken (env : SpotifyEnv) : List Event :=
  match env.refreshResult with
  | Except.ok tok => [Event.refreshCall, Event.refreshPersist tok]
  | Except.error _ => [Event.refreshCall]

/-- `addTrackToPlaylist(client, track)`: one insertion call at position
0; a resolved body yields `data.body.snapshot_id`, a rejection is
re-thrown. -/
def addTrackToPlaylist (env : SpotifyEnv) (uri : String) :
    List Event × Except SpotifyErr String :=
  ([Event.playlistCall uri], env.addToPlaylist uri)

/-! ## The Reconciliation Driver (`importTrack`) -/

/-- A persisted Track Record at `/tracks/(id)`: the raw payload under
`track`, plus the two optional resolution fields. -/
structure TrackRecord where
  track : JsObj String
  spotifyUri : Option String
  spotifyPlaylistSnapshotId : Option String
deriving DecidableEq, Repr

/-- `importTrack(trackId, track)`: reads the token pair (absorbed into
`env`), unconditionally refreshes the access token, resolves the track,
and — only when a truthy URI was found — writes `spotifyUri`, calls
playlist insertion, and, when the returned snapshot id is truthy,
writes `spotifyPlaylistSnapshotId`.  An insertion rejection propagates
(the promise rejects); everything else resolves. -/
def importTrack (env : SpotifyEnv) (trackId : String) (rec : TrackRecord) :
    List Event × Except SpotifyErr Unit :=
  let pre := refreshAccessToken env ++ (searchTrack env rec.track).1
  match (searchTrack env rec.track).2 with
  | none => (pre, Except.ok ())
  | some uri =>
    let apl := addTrackToPlaylist env uri
    let pre2 := pre ++ [Event.uriWrite trackId uri] ++ apl.1
    match apl.2 with
    | Except.error e => (pre2, Except.error e)
    | Except.ok snap =>
      if snap = "" then (pre2, Except.ok ())
      else (pre2 ++ [Event.snapshotWrite trackId snap], Except.ok ())

/-! ## The Batch Sweeper (`batchImportTracks` / `retrySpotify`) -/

/-- `track.track.item`, as interpolated into the `/tracks/...` path: an
absent field is the JavaScript `undefined`, which a template literal
renders as the string `undefined`. -/
def trackItemId (r : TrackRecord) : String :=
  (objGet r.track "item").getD "undefined"

/-- `batchImportTracks(collection)`: a `for...of` loop awaiting
`importTrack` on each record in turn, so each reconciliation completes
before the next begins; a rejection aborts the loop and propagates. -/
def batchImportTracks (env : SpotifyEnv) :
    List TrackRecord → List Event × Except SpotifyErr Unit
  | [] => ([], Except.ok ())
  | r :: rs =>
    let step := importTrack env (trackItemId r) r
    match step.2 with
    | Except.error e => (step.1, Except.error e)
    | Except.ok _ =>
      let next := batchImportTracks env rs
      (step.1 ++ next.1, next.2)

/-- The `/tracks` collection of the document store, in key order. -/
structure Db where
  tracks : List (String × TrackRecord)

/-- The candidate query of `retrySpotify`:
`orderByChild('spotifyUri').equalTo(null).limitToFirst(10)` keeps, in
order, the records whose `spotifyUri` child is absent, truncated to the
first 10; `snapshot.val()` is JavaScript `null` (here `none`) when the
result set is empty. -/
def orphanQuery (db : Db) : Option (List (String × TrackRecord)) :=
  let l := (db.tracks.filter (fun p => p.2.spotifyUri.isNone)).take 10
  if l.isEmpty then none else some l

/-- A JavaScript runtime error. -/
inductive JsError where
  /-- `TypeError`, e.g. from `Object.values(null)` -/
  | typeError : JsError
deriving DecidableEq, Repr

/-- `retrySpotify`: runs the candidate query, immediately acknowledges
with HTTP 200 (the first component — sent before the batch starts), and
then enumerates `Object.values(orphanTracks)` and runs the batch.  When
the query found nothing, `orphanTracks` is `null` and `Object.values`
throws a `TypeError` after the acknowledgment. -/
def retrySpotify (env : SpotifyEnv) (db : Db) :
    Nat × Except JsError (List Event × Except SpotifyErr Unit) :=
  match orphanQuery db with
  | none => (200, Except.error JsError.typeError)
  | some l => (200, Except.ok (batchImportTracks env (l.map Prod.snd)))

/-! ## The webhook handler (`importTracks`) -/

/-- Observable effects of the `importTracks` HTTP handler, in program
order. -/
inductive WebEvent where
  /-- the entry `logger.log` of the request body (info level) -/
  | logInfo : WebEvent
  /-- the `logger.error` for an order with no parsable tracks -/
  | logError (orderId : String) : WebEvent
  /-- `set` of the purchase record at `/purchases/(orderId)` -/
  | purchaseSet (orderId : String) (tracksColl : JsObj (JsObj String)) : WebEvent
  /-- `res.sendStatus(status)` -/
  | respond (status : Nat) : WebEvent
deriving DecidableEq, Repr

/-- Truthiness of the array `Object.keys(trackCollection)`: a JavaScript
array is an object and every object is truthy, whatever its contents,
so the `if (!Object.keys(trackCollection))` guard in the source can
never fire. -/
def jsArrayTruthy (_keys : List String) : Bool :=
  true

/-- The body of the reduce that formats the payload's track array as a
hash keyed by track id: the track's keys are lowered; a track whose
`item` value is `undefined` or fails the `Number(id)` truthiness test
is skipped (`return acc`), otherwise it is stored under its id. -/
def trackReduceStep (acc : JsObj (JsObj String)) (track : JsObj String) :
    JsObj (JsObj String) :=
  let st := lowerKeys track
  match objGet st "item" with
  | none => acc
  | some id => if jsNumberTruthy id then jsSet acc id st else acc

/-- `tracks.reduce(..., {})` from the `importTracks` handler. -/
def parseTrackCollection (tracks : List (JsObj String)) : JsObj (JsObj String) :=
  tracks.foldl trackReduceStep []

/-- Is the track skipped by the `!Number(id)` bail-out of the reduce? -/
def isMalformedId (track : JsObj String) : Bool :=
  match objGet (lowerKeys track) "item" with
  | none => true
  | some id => !jsNumberTruthy id

/-- The `importTracks` webhook handler: logs the body, builds the track
collection, logs an error when the (never-falsy) `Object.keys` guard
would allow it, writes the purchase record at `/purchases/(order_id)`,
and responds 200. -/
def importTracks (order_id : String) (tracks : List (JsObj String)) :
    List WebEvent :=
  let collection := parseTrackCollection tracks
  WebEvent.logInfo ::
    ((if jsArrayTruthy (collection.map Prod.fst) then []
      else [WebEvent.logError order_id]) ++
      [WebEvent.purchaseSet order_id collection, WebEvent.respond 200])

/-! ## Shared lemmas about the traces -/

/-- The refresh step emits one or two events, starting with the call. -/
theorem refreshAccessToken_shape (env : SpotifyEnv) :
    refreshAccessToken env = [Event.refreshCall] ∨
      ∃ tok, refreshAccessToken env = [Event.refreshCall, Event.refreshPersist tok] := by
  cases h : env.refreshResult with
  | ok tok => exact Or.inr ⟨tok, by simp [refreshAccessToken, h]⟩
  | error e => exact Or.inl (by simp [refreshAccessToken, h])

/-- Every event the Resolver emits is a search call. -/
theorem searchTrack_events_shape (env : SpotifyEnv) (track : JsObj String) :
    ∀ e ∈ (searchTrack env track).1, ∃ q, e = Event.searchCall q := by
  intro e he
  simp only [searchTrack, List.mem_map] at he
  obtain ⟨q, _, rfl⟩ := he
  exact ⟨q, rfl⟩

/-- No event emitted before the Driver's conditional branch is a Track
Record write or a playlist call. -/
theorem pre_events_benign (env : SpotifyEnv) (track : JsObj String) :
    ∀ e ∈ refreshAccessToken env ++ (searchTrack env track).1,
      isTrackWrite e = false ∧ isPlaylistCall e = false := by
  intro e he
  rcases List.mem_append.mp he with h | h
  · rcases refreshAccessToken_shape env with hs | ⟨tok, hs⟩
    · rw [hs] at h
      rcases List.mem_singleton.mp h with rfl
      exact ⟨rfl, rfl⟩
    · rw [hs] at h
      rcases List.mem_cons.mp h with rfl | h2
      · exact ⟨rfl, rfl⟩
      · rcases List.mem_singleton.mp h2 with rfl
        exact ⟨rfl, rfl⟩
  · obtain ⟨q, rfl⟩ := searchTrack_events_shape env track e h
    exact ⟨rfl, rfl⟩

/-- The refresh step performs exactly one refresh call. -/
theorem refreshAccessToken_countP (env : SpotifyEnv) :
    List.countP isRefreshCall (refreshAccessToken env) = 1 := by
  rcases refreshAccessToken_shape env with hs | ⟨tok, hs⟩ <;>
    simp [hs, List.countP_cons, isRefreshCall]

/-- The refresh step's trace starts with the refresh call. -/
theorem refreshAccessToken_head (env : SpotifyEnv) :
    (refreshAccessToken env).head? = some Event.refreshCall := by
  rcases refreshAccessToken_shape env with hs | ⟨tok, hs⟩ <;> simp [hs]

/-- The Resolver performs no refresh call. -/
theorem searchTrack_countP_refresh (env : SpotifyEnv) (track : JsObj String) :
    List.countP isRefreshCall (searchTrack env track).1 = 0 := by
  rw [List.countP_eq_zero]
  intro e he
  obtain ⟨q, rfl⟩ := searchTrack_events_shape env track e he
  simp [isRefreshCall]

/-- The Resolver performs no playlist call. -/
theorem searchTrack_countP_playlist (env : SpotifyEnv) (track : JsObj String) :
    List.countP isPlaylistCall (searchTrack env track).1 = 0 := by
  rw [List.countP_eq_zero]
  intro e he
  obtain ⟨q, rfl⟩ := searchTrack_events_shape env track e he
  simp [isPlaylistCall]

/-- Selecting the first truthy response of an all-falsy list gives
nothing. -/
theorem jsFindTruthy_all_none (rs : List (Option String))
    (h : ∀ r ∈ rs, r = none) : jsFindTruthy rs = none := by
  induction rs with
  | nil => rfl
  | cons r rest ih =>
    have hr : r = none := h r (List.mem_cons_self r rest)
    subst hr
    exact ih (fun x hx => h x (List.mem_cons_of_mem _ hx))

/-- When every reconciliation in a batch resolves, the batch trace is
the concatenation, in order, of the individual traces, and the batch
itself resolves. -/
theorem batchImportTracks_join (env : SpotifyEnv) (recs : List TrackRecord)
    (h : ∀ r ∈ recs, (importTrack env (trackItemId r) r).2 = Except.ok ()) :
    (batchImportTracks env recs).1 =
      (recs.map (fun r => (importTrack env (trackItemId r) r).1)).flatten ∧
    (batchImportTracks env recs).2 = Except.ok () := by
  induction recs with
  | nil => exact ⟨rfl, rfl⟩
  | cons r rs ih =>
    have hr : (importTrack env (trackItemId r) r).2 = Except.ok () :=
      h r (List.mem_cons_self r rs)
    have ih' := ih (fun x hx => h x (List.mem_cons_of_mem _ hx))
    constructor
    · simp [batchImportTracks, hr, ih'.1]
    · simp [batchImportTracks, hr, ih'.2]

/-! ## Claim C6 — the Sanitizer -/

/-- Claim C6, as stated, is false: a single global removal pass can
concatenate surrounding text into a fresh occurrence of the noise
phrase.  On the title `OriginalOriginal Mix Mix` the sanitizer removes
the one occurrence it scans (at offset 8) and the remaining pieces
reassemble to `Original Mix`, so the output still contains the phrase. -/
theorem claim_C6_counterexample :
    sanitizeTrackName "OriginalOriginal Mix Mix" = "Original Mix" ∧
    containsCI ("Original Mix").data
      (sanitizeTrackName "OriginalOriginal Mix Mix").data = true := by
  exact ⟨by decide, by decide⟩

/-- Claim C6 (amended): for every title the Sanitizer's output contains
no parenthesis character, and for every title containing no noise
phrase (in any letter-casing) and no parenthesis the Sanitizer is the
identity; it is pure and total by construction.  The original claim's
guarantee that the output never contains a noise phrase does not hold:
each removal pass deletes only the occurrences found in its single
left-to-right scan, and removal can splice surrounding text into a new
occurrence. -/
theorem claim_C6_amended (name : String) :
    (∀ c ∈ (sanitizeTrackName name).data, c ≠ '(' ∧ c ≠ ')') ∧
    (containsCI ("Original Mix").data name.data = false →
      containsCI ("Extended Mix").data name.data = false →
      (∀ c ∈ name.data, c ≠ '(' ∧ c ≠ ')') →
      sanitizeTrackName name = name) := by
  constructor
  · intro c hc
    simp only [sanitizeTrackName] at hc
    have hp := (List.mem_filter.mp hc).2
    constructor
    · intro h; subst h; simp at hp
    · intro h; subst h; simp at hp
  · intro h1 h2 h3
    have e1 : stripPhraseCI "Original Mix" name.data = name.data :=
      stripCIAux_of_not_contains _ _ h1
    have e2 : stripPhraseCI "Extended Mix" name.data = name.data :=
      stripCIAux_of_not_contains _ _ h2
    have e3 : List.filter (fun c => !(c == '(' || c == ')')) name.data =
        name.data := by
      rw [List.filter_eq_self]
      intro c hc
      have := h3 c hc
      simp [this.1, this.2]
    show String.mk _ = name
    rw [e1, e2, e3]

/-- Witness for the amended claim C6 on a concrete clean title. -/
theorem claim_C6_amended_witness :
    containsCI ("Original Mix").data ("Clean Song").data = false ∧
    containsCI ("Extended Mix").data ("Clean Song").data = false ∧
    (∀ c ∈ ("Clean Song").data, c ≠ '(' ∧ c ≠ ')') ∧
    sanitizeTrackName "Clean Song" = "Clean Song" :=
  ⟨by decide, by decide, by decide,
    (claim_C6_amended "Clean Song").2 (by decide) (by decide) (by decide)⟩

/-! ## Claim C2 — resolvable track: both fields, URI first -/

/-- Claim C2: when resolution yields a match URI (and the playlist
insertion resolves with a truthy snapshot id, which is what allows the
Driver to complete), the Driver completes successfully, the trace ends
with the URI write, the insertion call and the snapshot write in that
order, and nothing before the URI write touches a Track Record — so a
snapshot id is never written before the matched URI. -/
theorem claim_C2 (env : SpotifyEnv) (tid : String) (rec : TrackRecord)
    (uri snap : String)
    (hs : (searchTrack env rec.track).2 = some uri)
    (ha : env.addToPlaylist uri = Except.ok snap)
    (hsnap : snap ≠ "") :
    (importTrack env tid rec).2 = Except.ok () ∧
    (importTrack env tid rec).1 =
      refreshAccessToken env ++ (searchTrack env rec.track).1 ++
        [Event.uriWrite tid uri, Event.playlistCall uri,
          Event.snapshotWrite tid snap] ∧
    (∀ e ∈ refreshAccessToken env ++ (searchTrack env rec.track).1,
      isTrackWrite e = false) := by
  refine ⟨?_, ?_, ?_⟩
  · simp [importTrack, addTrackToPlaylist, hs, ha, hsnap]
  · simp [importTrack, addTrackToPlaylist, hs, ha, hsnap]
  · intro e he
    exact (pre_events_benign env rec.track e he).1

def envC2w : SpotifyEnv :=
  ⟨fun _ => Except.ok [SpotifyItem.mk "spotify:track:42"],
    fun _ => Except.ok "snapA", Except.ok "tokA"⟩

def recC2w : TrackRecord :=
  TrackRecord.mk [("Artists", "DJ A"), ("Name", "Song (Original Mix)")]
    none none

/-- Witness for claim C2 on a concrete resolvable track. -/
theorem claim_C2_witness :
    (searchTrack envC2w recC2w.track).2 = some "spotify:track:42" ∧
    envC2w.addToPlaylist "spotify:track:42" = Except.ok "snapA" ∧
    (importTrack envC2w "7" recC2w).2 = Except.ok () ∧
    (importTrack envC2w "7" recC2w).1 =
      refreshAccessToken envC2w ++ (searchTrack envC2w recC2w.track).1 ++
        [Event.uriWrite "7" "spotify:track:42",
          Event.playlistCall "spotify:track:42",
          Event.snapshotWrite "7" "snapA"] :=
  ⟨by decide, by decide,
    (claim_C2 envC2w "7" recC2w "spotify:track:42" "snapA" (by decide)
      (by decide) (by decide)).1,
    (claim_C2 envC2w "7" recC2w "spotify:track:42" "snapA" (by decide)
      (by decide) (by decide)).2.1⟩

/-! ## Claim C3 — unresolvable track: no writes, no insertion -/

/-- Claim C3: when resolution yields no match, the Driver completes
successfully and its trace contains no Track Record write and no
playlist-insertion call. -/
theorem claim_C3 (env : SpotifyEnv) (tid : String) (rec : TrackRecord)
    (hs : (searchTrack env rec.track).2 = none) :
    (importTrack env tid rec).2 = Except.ok () ∧
    (importTrack env tid rec).1 =
      refreshAccessToken env ++ (searchTrack env rec.track).1 ∧
    ∀ e ∈ (importTrack env tid rec).1,
      isTrackWrite e = false ∧ isPlaylistCall e = false := by
  have h1 : (importTrack env tid rec).1 =
      refreshAccessToken env ++ (searchTrack env rec.track).1 := by
    simp [importTrack, hs]
  refine ⟨by simp [importTrack, hs], h1, ?_⟩
  intro e he
  rw [h1] at he
  exact pre_events_benign env rec.track e he

def envC3w : SpotifyEnv :=
  ⟨fun _ => Except.ok [], fun _ => Except.ok "snapA", Except.ok "tokA"⟩

def recC3w : TrackRecord :=
  TrackRecord.mk [("Artists", "DJ A"), ("Name", "Missing Song")] none none

/-- Witness for claim C3 on a concrete unresolvable track. -/
theorem claim_C3_witness :
    (searchTrack envC3w recC3w.track).2 = none ∧
    (importTrack envC3w "9" recC3w).2 = Except.ok () ∧
    (importTrack envC3w "9" recC3w).1 =
      refreshAccessToken envC3w ++ (searchTrack envC3w recC3w.track).1 :=
  ⟨by decide, (claim_C3 envC3w "9" recC3w (by decide)).1,
    (claim_C3 envC3w "9" recC3w (by decide)).2.1⟩

/-! ## Claim C4 — two-artist fan-out and second-query selection -/

/-- Claim C4: for a track whose artist list splits on the comma into two
substrings, exactly two search queries are issued, in artist order, each
combining the artist substring with the sanitized title; and when the
first query yields no candidates while the second yields a non-empty
list, the Resolver returns the second result's first URI (the JavaScript
truthiness filter additionally requires that URI to be a non-empty
string, as every real catalog URI is). -/
theorem claim_C4 (env : SpotifyEnv) (track : JsObj String)
    (arts nm a1 a2 : String) (item : SpotifyItem) (rest : List SpotifyItem)
    (hartists : objGet (lowerKeys track) "artists" = some arts)
    (hname : objGet (lowerKeys track) "name" = some nm)
    (hsplit : jsSplit ',' arts = [a1, a2])
    (h1 : env.searchResults (perArtistQuery nm a1) = Except.ok [])
    (h2 : env.searchResults (perArtistQuery nm a2) = Except.ok (item :: rest))
    (huri : item.uri ≠ "") :
    (searchTrack env track).1 =
      [Event.searchCall (perArtistQuery nm a1),
        Event.searchCall (perArtistQuery nm a2)] ∧
    (searchTrack env track).2 = some item.uri := by
  have hq : searchQueriesOf track =
      [perArtistQuery nm a1, perArtistQuery nm a2] := by
    simp [searchQueriesOf, hartists, hname, hsplit]
  constructor
  · simp [searchTrack, hq]
  · simp [searchTrack, hq, perQueryResult, h1, h2, jsFindTruthy, huri]

def envC4w : SpotifyEnv :=
  ⟨fun q =>
      if q = perArtistQuery "Song" " B" then
        Except.ok [SpotifyItem.mk "spotify:track:b1"]
      else Except.ok [],
    fun _ => Except.ok "snapB", Except.ok "tokB"⟩

def trkC4w : JsObj String := [("Artists", "A, B"), ("Name", "Song")]

/-- Witness for claim C4 on the artist list `A, B`. -/
theorem claim_C4_witness :
    objGet (lowerKeys trkC4w) "artists" = some "A, B" ∧
    jsSplit ',' "A, B" = ["A", " B"] ∧
    (searchTrack envC4w trkC4w).1 =
      [Event.searchCall (perArtistQuery "Song" "A"),
        Event.searchCall (perArtistQuery "Song" " B")] ∧
    (searchTrack envC4w trkC4w).2 = some "spotify:track:b1" :=
  ⟨by decide, by decide,
    (claim_C4 envC4w trkC4w "A, B" "Song" "A" " B"
      (SpotifyItem.mk "spotify:track:b1") [] (by decide) (by decide)
      (by decide) (by decide) (by decide) (by decide)).1,
    (claim_C4 envC4w trkC4w "A, B" "Song" "A" " B"
      (SpotifyItem.mk "spotify:track:b1") [] (by decide) (by decide)
      (by decide) (by decide) (by decide) (by decide)).2⟩

/-! ## Claim C5 — all queries miss or fail: no match, no failure -/

/-- Claim C5: when every per-artist query's caught outcome is `null`
(which covers both a rejection, caught by the per-request handler, and
an empty candidate list), the Resolver resolves with no match rather
than rejecting, and the encompassing reconciliation still completes
successfully; moreover a per-artist rejection is always treated as no
match for that artist. -/
theorem claim_C5 (env : SpotifyEnv) (tid : String) (track : JsObj String)
    (h : ∀ q ∈ searchQueriesOf track, perQueryResult env q = none) :
    (searchTrack env track).2 = none ∧
    (importTrack env tid (TrackRecord.mk track none none)).2 =
      Except.ok () ∧
    (∀ q err, env.searchResults q = Except.error err →
      perQueryResult env q = none) := by
  have hall : ∀ r ∈ (searchQueriesOf track).map (perQueryResult env),
      r = none := by
    intro r hr
    obtain ⟨q, hq, rfl⟩ := List.mem_map.mp hr
    exact h q hq
  have hnone : (searchTrack env track).2 = none :=
    jsFindTruthy_all_none _ hall
  have hrec : (TrackRecord.mk track none none).track = track := rfl
  refine ⟨hnone, ?_, ?_⟩
  · simp only [importTrack, hrec, hnone]
  · intro q err he
    simp [perQueryResult, he]

def envC5w : SpotifyEnv :=
  ⟨fun q =>
      if q = perArtistQuery "Ghost" "A" then
        Except.error (SpotifyErr.mk 500)
      else Except.ok [],
    fun _ => Except.ok "snapC", Except.ok "tokC"⟩

def trkC5w : JsObj String := [("Artists", "A,B"), ("Name", "Ghost")]

/-- Witness for claim C5: one query rejects, the other comes back
empty. -/
theorem claim_C5_witness :
    (∀ q ∈ searchQueriesOf trkC5w, perQueryResult envC5w q = none) ∧
    envC5w.searchResults (perArtistQuery "Ghost" "A") =
      Except.error (SpotifyErr.mk 500) ∧
    (searchTrack envC5w trkC5w).2 = none ∧
    (importTrack envC5w "3" (TrackRecord.mk trkC5w none none)).2 =
      Except.ok () :=
  ⟨by decide, by decide,
    (claim_C5 envC5w "3" trkC5w (by decide)).1,
    (claim_C5 envC5w "3" trkC5w (by decide)).2.1⟩

/-! ## Claim C1 — the token policy is proactive, not reactive -/

def envC1all : SpotifyEnv :=
  ⟨fun _ => Except.ok [SpotifyItem.mk "spotify:track:11"],
    fun _ => Except.ok "snapD", Except.ok "tokD"⟩

def recC1 : TrackRecord :=
  TrackRecord.mk [("artists", "A"), ("name", "T")] none none

/-- Claim C1, as stated, is false of the code: here every external call
succeeds — no call ever fails, with an authorization error or
otherwise — yet the reconciliation's very first action is a token
refresh, so a refresh is performed before an operation that has not yet
failed, and refreshes are not in one-to-one correspondence with
authorization failures. -/
theorem claim_C1_counterexample :
    (importTrack envC1all "1" recC1).2 = Except.ok () ∧
    (importTrack envC1all "1" recC1).1.head? = some Event.refreshCall ∧
    List.countP isRefreshCall (importTrack envC1all "1" recC1).1 = 1 := by
  exact ⟨by decide, by decide, by decide⟩

/-- The trace of one reconciliation is the refresh events, the search
events, and a tail holding at most the conditional write/insert events;
the tail never refreshes and inserts at most once. -/
theorem importTrack_trace_decomp (env : SpotifyEnv) (tid : String)
    (rec : TrackRecord) :
    ∃ tail, (importTrack env tid rec).1 =
        refreshAccessToken env ++ (searchTrack env rec.track).1 ++ tail ∧
      List.countP isRefreshCall tail = 0 ∧
      List.countP isPlaylistCall tail ≤ 1 := by
  cases hs : (searchTrack env rec.track).2 with
  | none =>
    refine ⟨[], ?_, rfl, by decide⟩
    simp [importTrack, hs]
  | some uri =>
    cases ha : env.addToPlaylist uri with
    | error e =>
      refine ⟨[Event.uriWrite tid uri, Event.playlistCall uri], ?_, ?_, ?_⟩
      · simp [importTrack, addTrackToPlaylist, hs, ha]
      · simp [List.countP_cons, isRefreshCall]
      · simp [List.countP_cons, isPlaylistCall]
    | ok snap =>
      by_cases hsnap : snap = ""
      · refine ⟨[Event.uriWrite tid uri, Event.playlistCall uri], ?_, ?_, ?_⟩
        · simp [importTrack, addTrackToPlaylist, hs, ha, hsnap]
        · simp [List.countP_cons, isRefreshCall]
        · simp [List.countP_cons, isPlaylistCall]
      · refine ⟨[Event.uriWrite tid uri, Event.playlistCall uri,
          Event.snapshotWrite tid snap], ?_, ?_, ?_⟩
        · simp [importTrack, addTrackToPlaylist, hs, ha, hsnap]
        · simp [List.countP_cons, isRefreshCall]
        · simp [List.countP_cons, isPlaylistCall]

/-- Claim C1 (amended): the Token Manager policy in the code is
proactive — every reconciliation performs exactly one token refresh as
its very first action, before any search or insertion; no call is ever
retried: at most one playlist-insertion call happens, and when the
insertion fails (authorization error or not) the failure propagates
after that single call with no further refresh. -/
theorem claim_C1_amended (env : SpotifyEnv) (tid : String)
    (rec : TrackRecord) :
    List.countP isRefreshCall (importTrack env tid rec).1 = 1 ∧
    (importTrack env tid rec).1.head? = some Event.refreshCall ∧
    List.countP isPlaylistCall (importTrack env tid rec).1 ≤ 1 ∧
    (∀ uri err, (searchTrack env rec.track).2 = some uri →
      env.addToPlaylist uri = Except.error err →
      (importTrack env tid rec).2 = Except.error err ∧
      List.countP isPlaylistCall (importTrack env tid rec).1 = 1) := by
  obtain ⟨tail, htr, hrt, hpt⟩ := importTrack_trace_decomp env tid rec
  refine ⟨?_, ?_, ?_, ?_⟩
  · rw [htr]
    simp [List.countP_append, refreshAccessToken_countP,
      searchTrack_countP_refresh, hrt]
  · rcases refreshAccessToken_shape env with hsh | ⟨tok, hsh⟩ <;>
      rw [htr, hsh] <;> simp
  · rw [htr]
    have h0 : List.countP isPlaylistCall (refreshAccessToken env) = 0 := by
      rcases refreshAccessToken_shape env with hsh | ⟨tok, hsh⟩ <;>
        simp [hsh, List.countP_cons, isPlaylistCall]
    simp [List.countP_append, h0, searchTrack_countP_playlist]
    exact hpt
  · intro uri err hs ha
    have h0 : List.countP isPlaylistCall (refreshAccessToken env) = 0 := by
      rcases refreshAccessToken_shape env with hsh | ⟨tok, hsh⟩ <;>
        simp [hsh, List.countP_cons, isPlaylistCall]
    constructor
    · simp [importTrack, addTrackToPlaylist, hs, ha]
    · have htr2 : (importTrack env tid rec).1 =
          refreshAccessToken env ++ (searchTrack env rec.track).1 ++
            [Event.uriWrite tid uri, Event.playlistCall uri] := by
        simp [importTrack, addTrackToPlaylist, hs, ha]
      rw [htr2]
      simp [List.countP_append, h0, searchTrack_countP_playlist,
        List.countP_cons, isPlaylistCall]

def envC1err : SpotifyEnv :=
  ⟨fun _ => Except.ok [SpotifyItem.mk "spotify:track:12"],
    fun _ => Except.error (SpotifyErr.mk 401), Except.ok "tokE"⟩

/-- Witness for the amended claim C1: a 401 on insertion propagates
after a single insertion call. -/
theorem claim_C1_amended_witness :
    (searchTrack envC1err recC1.track).2 = some "spotify:track:12" ∧
    envC1err.addToPlaylist "spotify:track:12" =
      Except.error (SpotifyErr.mk 401) ∧
    (importTrack envC1err "2" recC1).2 =
      Except.error (SpotifyErr.mk 401) ∧
    List.countP isPlaylistCall (importTrack envC1err "2" recC1).1 = 1 :=
  ⟨by decide, by decide,
    ((claim_C1_amended envC1err "2" recC1).2.2.2 "spotify:track:12"
      (SpotifyErr.mk 401) (by decide) (by decide)).1,
    ((claim_C1_amended envC1err "2" recC1).2.2.2 "spotify:track:12"
      (SpotifyErr.mk 401) (by decide) (by decide)).2⟩

/-! ## Claim C7 — the batch sweep over 12 unresolved records -/

/-- Claim C7: with 12 unresolved Track Records the candidate query
returns exactly the first 10 of them, the sweep acknowledges with 200
and then runs the batch over exactly those 10 records; and the batch is
strictly sequential — whenever every reconciliation in it resolves, its
trace is the concatenation, in order, of the complete per-record traces
and the sweep finishes only after the last one. -/
theorem claim_C7 (env : SpotifyEnv) (db : Db)
    (h : (db.tracks.filter (fun p => p.2.spotifyUri.isNone)).length = 12) :
    orphanQuery db =
      some ((db.tracks.filter (fun p => p.2.spotifyUri.isNone)).take 10) ∧
    ((db.tracks.filter (fun p => p.2.spotifyUri.isNone)).take 10).length
      = 10 ∧
    (retrySpotify env db).1 = 200 ∧
    (retrySpotify env db).2 = Except.ok (batchImportTracks env
      (((db.tracks.filter (fun p => p.2.spotifyUri.isNone)).take 10).map
        Prod.snd)) ∧
    (∀ recs : List TrackRecord,
      (∀ r ∈ recs, (importTrack env (trackItemId r) r).2 = Except.ok ()) →
      (batchImportTracks env recs).1 =
        (recs.map (fun r => (importTrack env (trackItemId r) r).1)).flatten ∧
      (batchImportTracks env recs).2 = Except.ok ()) := by
  have hlen :
      ((db.tracks.filter (fun p => p.2.spotifyUri.isNone)).take 10).length
        = 10 := by
    rw [List.length_take, h]
    rfl
  have hne :
      (db.tracks.filter (fun p => p.2.spotifyUri.isNone)).take 10 ≠ [] := by
    intro hc
    rw [hc] at hlen
    simp at hlen
  have hq : orphanQuery db =
      some ((db.tracks.filter (fun p => p.2.spotifyUri.isNone)).take 10) := by
    simp only [orphanQuery]
    rw [if_neg]
    simp only [List.isEmpty_iff]
    exact hne
  refine ⟨hq, hlen, ?_, ?_, ?_⟩
  · simp [retrySpotify, hq]
  · simp [retrySpotify, hq]
  · intro recs hok
    exact batchImportTracks_join env recs hok

def envC7w : SpotifyEnv :=
  ⟨fun _ => Except.ok [], fun _ => Except.ok "snapF", Except.ok "tokF"⟩

def dbC7w : Db :=
  Db.mk
    [("1", TrackRecord.mk [("item", "1")] none none),
      ("2", TrackRecord.mk [("item", "2")] none none),
      ("3", TrackRecord.mk [("item", "3")] none none),
      ("4", TrackRecord.mk [("item", "4")] none none),
      ("5", TrackRecord.mk [("item", "5")] none none),
      ("6", TrackRecord.mk [("item", "6")] none none),
      ("7", TrackRecord.mk [("item", "7")] none none),
      ("8", TrackRecord.mk [("item", "8")] none none),
      ("9", TrackRecord.mk [("item", "9")] none none),
      ("10", TrackRecord.mk [("item", "10")] none none),
      ("11", TrackRecord.mk [("item", "11")] none none),
      ("12", TrackRecord.mk [("item", "12")] none none)]

/-- Witness for claim C7 on a store holding 12 unresolved records. -/
theorem claim_C7_witness :
    (dbC7w.tracks.filter (fun p => p.2.spotifyUri.isNone)).length = 12 ∧
    ((dbC7w.tracks.filter (fun p => p.2.spotifyUri.isNone)).take 10).length
      = 10 ∧
    (retrySpotify envC7w dbC7w).2 = Except.ok (batchImportTracks envC7w
      (((dbC7w.tracks.filter (fun p => p.2.spotifyUri.isNone)).take 10).map
        Prod.snd)) :=
  ⟨by decide, (claim_C7 envC7w dbC7w (by decide)).2.1,
    (claim_C7 envC7w dbC7w (by decide)).2.2.2.1⟩

/-! ## Claim C9 — empty candidate set: 200 then TypeError -/

/-- Claim C9: when no Track Record lacks a matched URI, the candidate
query's value is `null`; the sweep still sends the HTTP 200
acknowledgment, and then `Object.values(null)` raises a `TypeError`, so
the sweep never completes normally. -/
theorem claim_C9 (env : SpotifyEnv) (db : Db)
    (h : db.tracks.filter (fun p => p.2.spotifyUri.isNone) = []) :
    (retrySpotify env db).1 = 200 ∧
    (retrySpotify env db).2 = Except.error JsError.typeError := by
  have hq : orphanQuery db = none := by
    simp [orphanQuery, h]
  exact ⟨by simp [retrySpotify, hq], by simp [retrySpotify, hq]⟩

def envC9w : SpotifyEnv :=
  ⟨fun _ => Except.ok [], fun _ => Except.ok "snapG", Except.ok "tokG"⟩

def dbC9w : Db :=
  Db.mk [("5", TrackRecord.mk [("item", "5")] (some "spotify:track:5") none)]

/-- Witness for claim C9 on a store whose only record is resolved. -/
theorem claim_C9_witness :
    dbC9w.tracks.filter (fun p => p.2.spotifyUri.isNone) = [] ∧
    (retrySpotify envC9w dbC9w).1 = 200 ∧
    (retrySpotify envC9w dbC9w).2 = Except.error JsError.typeError :=
  ⟨by decide, (claim_C9 envC9w dbC9w (by decide)).1,
    (claim_C9 envC9w dbC9w (by decide)).2⟩

/-! ## Claims C8 and C10 — the webhook handler -/

/-- Is the handler event the never-emitted parse-failure error log? -/
def isLogError : WebEvent → Bool
  | WebEvent.logError _ => true
  | _ => false

/-- An entry of `obj[k] = v` is the new binding or an old one. -/
theorem mem_jsSet {α : Type} (obj : JsObj α) (k : String) (v : α)
    (p : String × α) (hp : p ∈ jsSet obj k v) : p = (k, v) ∨ p ∈ obj := by
  simp only [jsSet] at hp
  by_cases hc : obj.any (fun q => q.1 == k)
  · rw [if_pos hc] at hp
    obtain ⟨q, hq, hpq⟩ := List.mem_map.mp hp
    by_cases h2 : (q.1 == k) = true
    · left
      rw [← hpq, if_pos h2]
    · right
      rw [← hpq, if_neg h2]
      exact hq
  · rw [if_neg hc] at hp
    rcases List.mem_append.mp hp with h | h
    · right
      exact h
    · left
      exact List.mem_singleton.mp h

/-- An entry added by one reduce step is an old entry or a new binding
whose key passed the `Number(id)` truthiness check. -/
theorem mem_trackReduceStep (acc : JsObj (JsObj String)) (t : JsObj String)
    (q : String × JsObj String) (hq : q ∈ trackReduceStep acc t) :
    q ∈ acc ∨ jsNumberTruthy q.1 = true := by
  cases hg : objGet (lowerKeys t) "item" with
  | none =>
    rw [trackReduceStep, hg] at hq
    exact Or.inl hq
  | some id =>
    rw [trackReduceStep, hg] at hq
    have hq' : q ∈ (if jsNumberTruthy id = true then
        jsSet acc id (lowerKeys t) else acc) := hq
    by_cases hn : jsNumberTruthy id = true
    · rw [if_pos hn] at hq'
      rcases mem_jsSet _ _ _ q hq' with rfl | hmem
      · exact Or.inr hn
      · exact Or.inl hmem
    · rw [if_neg hn] at hq'
      exact Or.inl hq'

/-- A malformed track leaves the accumulator unchanged. -/
theorem trackReduceStep_malformed (acc : JsObj (JsObj String))
    (t : JsObj String) (h : isMalformedId t = true) :
    trackReduceStep acc t = acc := by
  rw [isMalformedId] at h
  cases hg : objGet (lowerKeys t) "item" with
  | none =>
    rw [trackReduceStep, hg]
  | some id =>
    rw [hg] at h
    have h' : (!jsNumberTruthy id) = true := h
    have hfalse : jsNumberTruthy id = false := by
      cases hv : jsNumberTruthy id
      · rfl
      · rw [hv] at h'
        cases h'
    rw [trackReduceStep, hg]
    show (if jsNumberTruthy id = true then
      jsSet acc id (lowerKeys t) else acc) = acc
    rw [hfalse]
    simp

/-- Every key of the parsed track collection passed the `Number(id)`
truthiness check: malformed identifiers are excluded. -/
theorem parseTrackCollection_keys (tracks : List (JsObj String)) :
    ∀ p ∈ parseTrackCollection tracks, jsNumberTruthy p.1 = true := by
  have main : ∀ (ts : List (JsObj String)) (acc : JsObj (JsObj String)),
      (∀ p ∈ acc, jsNumberTruthy p.1 = true) →
      ∀ p ∈ ts.foldl trackReduceStep acc, jsNumberTruthy p.1 = true := by
    intro ts
    induction ts with
    | nil =>
      intro acc hacc p hp
      exact hacc p hp
    | cons t ts ih =>
      intro acc hacc p hp
      rw [List.foldl_cons] at hp
      refine ih _ ?_ p hp
      intro q hq
      rcases mem_trackReduceStep acc t q hq with hmem | hok
      · exact hacc q hmem
      · exact hok
  intro p hp
  exact main tracks [] (by intro q hq; cases hq) p hp

/-- A payload all of whose tracks are malformed parses to the empty
collection. -/
theorem parseTrackCollection_all_malformed (tracks : List (JsObj String))
    (h : ∀ t ∈ tracks, isMalformedId t = true) :
    parseTrackCollection tracks = [] := by
  have main : ∀ (ts : List (JsObj String)),
      (∀ t ∈ ts, isMalformedId t = true) →
      ∀ acc : JsObj (JsObj String), ts.foldl trackReduceStep acc = acc := by
    intro ts
    induction ts with
    | nil =>
      intro _ acc
      rfl
    | cons t ts ih =>
      intro hall acc
      rw [List.foldl_cons,
        trackReduceStep_malformed acc t (hall t (List.mem_cons_self t ts))]
      exact ih (fun x hx => hall x (List.mem_cons_of_mem _ hx)) acc
  exact main tracks h []

/-- Claim C8, as stated, is false: on a payload with one malformed
track (`Item: abc`) and one well-formed track, the handler's complete
effect list holds no warning or error log at all — the malformed track
is skipped silently (and the only error-log site is unreachable), even
though it is excluded from the persisted collection and the request is
answered 200. -/
theorem claim_C8_counterexample :
    importTracks "ord1" [[("Item", "abc"), ("Name", "N")], [("Item", "123")]]
      = [WebEvent.logInfo,
          WebEvent.purchaseSet "ord1" [("123", [("item", "123")])],
          WebEvent.respond 200] ∧
    List.countP isLogError
      (importTracks "ord1"
        [[("Item", "abc"), ("Name", "N")], [("Item", "123")]]) = 0 := by
  exact ⟨by decide, by decide⟩

/-- Claim C8 (amended): each malformed track is skipped silently — no
warning is logged for it, and the handler's only error-log site (the
order-level parse failure) is unreachable because `!Object.keys(...)`
is always false — the malformed track is excluded from the persisted
collection with no other state created for it, and the request is
always answered 200. -/
theorem claim_C8_amended (oid : String) (tracks : List (JsObj String)) :
    importTracks oid tracks =
      [WebEvent.logInfo, WebEvent.purchaseSet oid (parseTrackCollection tracks),
        WebEvent.respond 200] ∧
    ∀ p ∈ parseTrackCollection tracks, jsNumberTruthy p.1 = true := by
  constructor
  · simp [importTracks, jsArrayTruthy]
  · exact parseTrackCollection_keys tracks

/-- Witness for the amended claim C8 on a concrete payload. -/
theorem claim_C8_amended_witness :
    importTracks "ord2" [[("Item", "77")], [("Item", "x")]] =
      [WebEvent.logInfo,
        WebEvent.purchaseSet "ord2"
          (parseTrackCollection [[("Item", "77")], [("Item", "x")]]),
        WebEvent.respond 200] :=
  (claim_C8_amended "ord2" [[("Item", "77")], [("Item", "x")]]).1

/-- Claim C10: with a well-formed order id and track array whose tracks
all have malformed identifiers, the handler still writes the purchase
record — with an empty track collection — and responds 200; and an
identifier coercing to the number 0, such as the string `0`, counts as
malformed. -/
theorem claim_C10 (oid : String) (tracks : List (JsObj String))
    (h : ∀ t ∈ tracks, isMalformedId t = true) :
    importTracks oid tracks =
      [WebEvent.logInfo, WebEvent.purchaseSet oid [], WebEvent.respond 200] ∧
    isMalformedId [("Item", "0")] = true := by
  have hcoll : parseTrackCollection tracks = [] :=
    parseTrackCollection_all_malformed tracks h
  exact ⟨by simp [importTracks, jsArrayTruthy, hcoll], by decide⟩

/-- Witness for claim C10 on a payload whose tracks have identifiers
`0` and `abc`. -/
theorem claim_C10_witness :
    (∀ t ∈ ([[("Item", "0")], [("Item", "abc")]] : List (JsObj String)),
      isMalformedId t = true) ∧
    importTracks "X" [[("Item", "0")], [("Item", "abc")]] =
      [WebEvent.logInfo, WebEvent.purchaseSet "X" [], WebEvent.respond 200] :=
  ⟨by decide, (claim_C10 "X" [[("Item", "0")], [("Item", "abc")]]
    (by decide)).1⟩

end BeatportSync
